import Mathlib

/-!
Verification of the thinking-space supervisor core (Rust, `src-tauri/src`)
against its natural-language specification.

The Rust source is shallowly embedded: strings are `List Char` with their
UTF-8 byte width, registries are association lists, async channels are FIFO
queues, and the raced critical sections are modelled as explicit interleaving
machines. Each definition mirrors one function of the source, named after it.
-/

namespace ThinkingSpace

/-! ## Terminal (`src-tauri/src/terminal.rs`)

A Rust `String` is modelled as `List Char`; its byte length is the sum of the
UTF-8 widths of its characters, so every `List Char` corresponds to a valid
UTF-8 buffer and byte positions inside the buffer are char boundaries exactly
when they are a sum of leading character widths. -/

/-- Byte length of a buffer, `String::len` in the source. -/
def byteLen (s : List Char) : Nat := (s.map Char.utf8Size).sum

/-- Mirrors the truncation loop of `Terminal::append_output`
(`terminal.rs:40-46`): starting from the naive cut offset `e`
(`excess = len - max_output_bytes`), scan forward byte by byte until a char
boundary is reached (`while !is_char_boundary(truncate_at) { truncate_at += 1 }`)
and drop everything before that boundary (`self.output[truncate_at..]`).
At the character level: drop the minimal prefix of characters whose total byte
width is at least `e`. -/
def dropExcess : List Char → Nat → List Char
  | s, 0 => s
  | [], _ + 1 => []
  | c :: rest, e + 1 =>
      if e + 1 ≤ c.utf8Size then rest
      else dropExcess rest (e + 1 - c.utf8Size)

/-- `Terminal` (`terminal.rs:14-20`). The OS process handle is modelled by its
pid; `output` is the accumulated buffer. -/
structure Terminal where
  id : String
  process : Option Nat
  output : List Char
  exit_status : Option Int
  max_output_bytes : Nat

/-- `Terminal::append_output` (`terminal.rs:35-48`): push the new chunk, then
if the byte length exceeds `max_output_bytes`, truncate from the front at the
first char boundary at or after the naive excess offset. -/
def Terminal.append_output (t : Terminal) (new : List Char) : Terminal :=
  let pushed := t.output ++ new
  if byteLen pushed > t.max_output_bytes then
    { t with output := dropExcess pushed (byteLen pushed - t.max_output_bytes) }
  else
    { t with output := pushed }

theorem byteLen_cons (c : Char) (s : List Char) :
    byteLen (c :: s) = c.utf8Size + byteLen s := by
  simp [byteLen]

theorem byteLen_dropExcess (s : List Char) (e : Nat) :
    byteLen (dropExcess s e) ≤ byteLen s - e := by
  induction s generalizing e with
  | nil => cases e <;> simp [dropExcess, byteLen]
  | cons c rest ih =>
      cases e with
      | zero => simp [dropExcess]
      | succ e =>
          by_cases h : e + 1 ≤ c.utf8Size
          · simp only [dropExcess, if_pos h, byteLen_cons]
            omega
          · simp only [dropExcess, if_neg h, byteLen_cons]
            have := ih (e + 1 - c.utf8Size)
            omega

theorem dropExcess_isSuffix (s : List Char) (e : Nat) :
    List.IsSuffix (dropExcess s e) s := by
  induction s generalizing e with
  | nil => cases e <;> simp [dropExcess]
  | cons c rest ih =>
      cases e with
      | zero => simp [dropExcess]
      | succ e =>
          by_cases h : e + 1 ≤ c.utf8Size
          · simp only [dropExcess, if_pos h]
            exact (List.suffix_cons c rest)
          · simp only [dropExcess, if_neg h]
            exact (ih (e + 1 - c.utf8Size)).trans (List.suffix_cons c rest)

theorem append_output_max_eq (t : Terminal) (new : List Char) :
    (t.append_output new).max_output_bytes = t.max_output_bytes := by
  unfold Terminal.append_output
  by_cases h : byteLen (t.output ++ new) > t.max_output_bytes <;> simp [h]

theorem append_output_le (t : Terminal) (new : List Char) :
    byteLen (t.append_output new).output ≤ t.max_output_bytes := by
  unfold Terminal.append_output
  by_cases h : byteLen (t.output ++ new) > t.max_output_bytes
  · simp only [h, if_true]
    have := byteLen_dropExcess (t.output ++ new) (byteLen (t.output ++ new) - t.max_output_bytes)
    omega
  · simp only [h, if_false]
    omega

theorem append_output_suffix (t : Terminal) (new : List Char) :
    List.IsSuffix (t.append_output new).output (t.output ++ new) := by
  unfold Terminal.append_output
  by_cases h : byteLen (t.output ++ new) > t.max_output_bytes
  · simp only [h, if_true]
    exact dropExcess_isSuffix _ _
  · simp only [h, if_false]
    exact List.suffix_rfl

theorem foldl_append_output_max_eq (t : Terminal) (chunks : List (List Char)) :
    (chunks.foldl Terminal.append_output t).max_output_bytes = t.max_output_bytes := by
  induction chunks generalizing t with
  | nil => rfl
  | cons c cs ih => simp [List.foldl_cons, ih, append_output_max_eq]

/-- C2: For every sequence of `append_output` calls on a `Terminal` with
ceiling `max_output_bytes`, after each call the retained buffer is a suffix of
the pushed text cut at a character boundary (hence valid UTF-8 — in the
character-level model every buffer is a whole number of characters, and the
suffix property states that the cut never falls inside a character) and its
byte length is at most `max_output_bytes`. -/
theorem append_output_sequence_bounded (t : Terminal) (chunks : List (List Char))
    (c : List Char) :
    byteLen ((chunks.foldl Terminal.append_output t).append_output c).output
        ≤ t.max_output_bytes ∧
    List.IsSuffix ((chunks.foldl Terminal.append_output t).append_output c).output
        ((chunks.foldl Terminal.append_output t).output ++ c) := by
  constructor
  · have h := append_output_le (chunks.foldl Terminal.append_output t) c
    rwa [foldl_append_output_max_eq] at h
  · exact append_output_suffix _ _

/-! ## TerminalManager (`terminal.rs:52-182`)

The registry (`Arc<Mutex<HashMap<String, Terminal>>>`) is an association list
with one entry per terminal id; the operating system is modelled by the list
of pids of live processes. `create_terminal` sets `kill_on_drop(true)` on the
child (`terminal.rs:85`), so Rust drop semantics apply on removal: dropping a
`Terminal` whose `Child` handle is still present sends a kill to the process. -/

/-- The manager together with the part of the OS it touches. -/
structure ManagerState where
  terminals : List (String × Terminal)
  alive : List Nat

/-- `HashMap::get` on the registry. -/
def lookupTerminal (m : List (String × Terminal)) (k : String) : Option Terminal :=
  (m.find? (fun p => p.1 == k)).map Prod.snd

/-- `HashMap::remove` on the registry. -/
def removeTerminal (m : List (String × Terminal)) (k : String) : List (String × Terminal) :=
  m.filter (fun p => p.1 != k)

/-- Effect on the OS of dropping a `Terminal` value: the `Child` was spawned
with `kill_on_drop(true)` (`terminal.rs:85`), so if a process handle is still
held, the kill signal is sent and the process stops. -/
def dropChild (alive : List Nat) (proc : Option Nat) : List Nat :=
  match proc with
  | none => alive
  | some pid => alive.filter (· ≠ pid)

/-- `TerminalManager::get_output` (`terminal.rs:128-135`): error for a missing
id, otherwise the buffer and the exit status. Never blocks, never panics. -/
def ManagerState.get_output (s : ManagerState) (id : String) :
    Except String (List Char × Option Int) :=
  match lookupTerminal s.terminals id with
  | none => Except.error "Terminal not found"
  | some t => Except.ok (t.output, t.exit_status)

/-- `TerminalManager::kill` (`terminal.rs:138-151`): `if let Some(terminal)`
falls through for a missing id, so the function returns `Ok(())` without doing
anything; with a process handle present it kills the process. The terminal
stays in the registry. -/
def ManagerState.kill (s : ManagerState) (id : String) :
    ManagerState × Except String Unit :=
  match lookupTerminal s.terminals id with
  | none => (s, Except.ok ())
  | some t =>
      match t.process with
      | none => (s, Except.ok ())
      | some pid => ({ s with alive := s.alive.filter (· ≠ pid) }, Except.ok ())

/-- `TerminalManager::release` (`terminal.rs:154-160`): remove the entry
unconditionally and return `Ok(())`. The removed `Terminal` value is dropped
on the spot (`terminals.remove(terminal_id);` discards it), which drops its
`Child` handle; because the child was spawned with `kill_on_drop(true)`, a
still-running process is killed by the drop. -/
def ManagerState.release (s : ManagerState) (id : String) :
    ManagerState × Except String Unit :=
  match lookupTerminal s.terminals id with
  | none => ({ s with terminals := removeTerminal s.terminals id }, Except.ok ())
  | some t =>
      ({ terminals := removeTerminal s.terminals id,
         alive := dropChild s.alive t.process }, Except.ok ())

/-- `TerminalManager::wait_for_exit` (`terminal.rs:163-182`): poll the registry
every 100 ms until the entry has an exit status. The loop has no branch that
returns for a missing id: `if let Some(terminal)` simply falls through to the
sleep. Fuel counts polling iterations; `none` means the loop is still running
after that many polls. -/
def ManagerState.wait_for_exit (s : ManagerState) (id : String) :
    Nat → Option (Except String Int)
  | 0 => none
  | fuel + 1 =>
      match lookupTerminal s.terminals id with
      | some t =>
          match t.exit_status with
          | some code => some (Except.ok code)
          | none => s.wait_for_exit id fuel
      | none => s.wait_for_exit id fuel

theorem lookupTerminal_removeTerminal (m : List (String × Terminal)) (k : String) :
    lookupTerminal (removeTerminal m k) k = none := by
  induction m with
  | nil => rfl
  | cons p rest ih =>
      simp only [removeTerminal, List.filter_cons] at ih ⊢
      simp only [bne] at ih ⊢
      by_cases h : p.1 == k
      · simp [h, ih]
      · simp only [h, Bool.not_false, if_pos]
        simp only [lookupTerminal, List.find?_cons, h] at ih ⊢
        exact ih

/-- Concrete state used in the terminal counterexamples: one terminal `"t1"`
with a live process (pid 7) and no exit status. -/
def exTerm : Terminal :=
  { id := "t1", process := some 7, output := [], exit_status := none,
    max_output_bytes := 1000000 }

/-- One registered terminal, its process alive. -/
def exManager : ManagerState :=
  { terminals := [("t1", exTerm)], alive := [7] }

/-- C4, counterexample: the claim says a still-running process is not killed
by `release` and may still be alive afterwards. In `exManager` the process of
terminal `"t1"` (pid 7) is alive and `release` is called without a prior
`kill`; afterwards pid 7 is no longer alive, because `create_terminal` set
`kill_on_drop(true)` and `release` drops the `Child` handle. -/
theorem release_kills_counterexample :
    exManager.alive = [7] ∧ (lookupTerminal exManager.terminals "t1").isSome = true ∧
    (exManager.release "t1").2 = Except.ok () ∧
    (exManager.release "t1").1.alive = [] := by
  refine ⟨rfl, rfl, rfl, rfl⟩

/-- C4, amended: `release(id)` removes the terminal and its buffer from the
registry and reports success, but — because the child was spawned with
`kill_on_drop(true)` — dropping the removed terminal's process handle kills a
still-running process: after release the terminal's pid is no longer alive. -/
theorem release_removes_and_kill_on_drop (s : ManagerState) (id : String)
    (t : Terminal) (pid : Nat)
    (hl : lookupTerminal s.terminals id = some t) (hp : t.process = some pid) :
    (s.release id).2 = Except.ok () ∧
    lookupTerminal (s.release id).1.terminals id = none ∧
    pid ∉ (s.release id).1.alive := by
  refine ⟨?_, ?_, ?_⟩
  · simp [ManagerState.release, hl]
  · simp only [ManagerState.release, hl]
    exact lookupTerminal_removeTerminal _ _
  · simp [ManagerState.release, hl, dropChild, hp]

/-- C4, witness for `release_removes_and_kill_on_drop` at `exManager`. -/
theorem release_removes_and_kill_on_drop_witness :
    (exManager.release "t1").2 = Except.ok () ∧
    lookupTerminal (exManager.release "t1").1.terminals "t1" = none ∧
    7 ∉ (exManager.release "t1").1.alive :=
  release_removes_and_kill_on_drop exManager "t1" exTerm 7 rfl rfl

/-- C5, counterexample: the claim says `kill(id)` and `wait_for_exit(id)`
return an error for a missing id. For the unregistered id `"ghost"`,
`kill` returns `Ok(())` (the `if let Some` falls through to success), and
`wait_for_exit` is still polling with no result after 100 iterations — the
loop has no exit for a missing id. Only `get_output` returns an error. -/
theorem terminal_missing_id_counterexample :
    lookupTerminal exManager.terminals "ghost" = none ∧
    (exManager.kill "ghost").2 = Except.ok () ∧
    exManager.wait_for_exit "ghost" 100 = none ∧
    exManager.get_output "ghost" = Except.error "Terminal not found" := by
  refine ⟨rfl, rfl, rfl, rfl⟩

/-- C5, amended: for a terminal id not present in the registry, `get_output`
returns an error and never panics; `kill` returns success without touching any
state; and `wait_for_exit` never returns at all (it polls forever: for every
number of polling iterations it has produced no result). -/
theorem terminal_missing_id_behavior (s : ManagerState) (id : String) (fuel : Nat)
    (h : lookupTerminal s.terminals id = none) :
    s.get_output id = Except.error "Terminal not found" ∧
    s.kill id = (s, Except.ok ()) ∧
    s.wait_for_exit id fuel = none := by
  refine ⟨by simp [ManagerState.get_output, h], by simp [ManagerState.kill, h], ?_⟩
  induction fuel with
  | zero => rfl
  | succ n ih => simp only [ManagerState.wait_for_exit, h]; exact ih

/-- C5, witness for `terminal_missing_id_behavior` at `exManager` and id
`"ghost"` with three polling iterations. -/
theorem terminal_missing_id_behavior_witness :
    exManager.get_output "ghost" = Except.error "Terminal not found" ∧
    exManager.kill "ghost" = (exManager, Except.ok ()) ∧
    exManager.wait_for_exit "ghost" 3 = none :=
  terminal_missing_id_behavior exManager "ghost" 3 rfl

/-! ## AcpManager start and credentials (`src-tauri/src/acp_v2/manager.rs`) -/

/-- `AcpManager::start`, credential resolution (`manager.rs:71`):
`api_key.or_else(|| std::env::var("ANTHROPIC_API_KEY").ok())`. The first
argument is the explicit key passed to `start`; the second is the value of
`ANTHROPIC_API_KEY` in the supervisor's own environment, `none` when unset. -/
def resolve_api_key (api_key : Option String) (envAnthropicApiKey : Option String) :
    Option String :=
  api_key.orElse (fun _ => envAnthropicApiKey)

/-- `manager.rs:104-111`: `if let Some(key) = api_key_value { cmd.env(...) }` —
the adapter child is spawned with `ANTHROPIC_API_KEY` injected exactly when the
resolved value is present. -/
def injects_credential (api_key envAnthropicApiKey : Option String) : Bool :=
  (resolve_api_key api_key envAnthropicApiKey).isSome

/-- C7, counterexample: with no explicit key argument but `ANTHROPIC_API_KEY`
set in the supervisor's own environment, the credential variable is injected
into the adapter's environment — refuting "set if and only if an explicit key
argument was supplied" (the left side holds, the right side fails). -/
theorem credential_injection_counterexample :
    injects_credential none (some "sk-from-env") = true ∧
    (none : Option String).isSome = false :=
  ⟨rfl, rfl⟩

/-- C7, amended: the adapter subprocess is spawned with `ANTHROPIC_API_KEY`
set if and only if an explicit key argument was supplied *or* the supervisor's
own environment carries `ANTHROPIC_API_KEY`; the explicit argument takes
precedence, and only when both are absent is no credential injected. -/
theorem credential_injection (api_key envVar : Option String) :
    injects_credential api_key envVar = (api_key.isSome || envVar.isSome) ∧
    (∀ k, resolve_api_key (some k) envVar = some k) ∧
    resolve_api_key none envVar = envVar := by
  refine ⟨?_, fun k => rfl, rfl⟩
  cases api_key <;> cases envVar <;> rfl

/-- Result of the background thread spawned by `start` (`manager.rs:84-183`):
the adapter spawn can fail (`manager.rs:113-115`), the initialize handshake can
fail (`manager.rs:138-148`), or both succeed. -/
inductive StartOutcome
  | spawnFailed
  | initFailed
  | success

/-- `AcpManager` state touched by `start` (`manager.rs:20-30`): the stored
child handle, the stored connection, and whether a shutdown sender is held. -/
structure SupervisorState where
  process : Option Nat
  connection : Option Nat
  shutdownTx : Bool

/-- `AcpManager::start` (`manager.rs:59-186`) with the background thread it
spawns run to completion. If a process is already stored, return `Ok` at once
(`manager.rs:62-65`). Otherwise store the shutdown sender (`manager.rs:81`) and
spawn the thread; the thread stores connection and process only after a
successful initialize (`manager.rs:160-161`), and on failure only logs
(`manager.rs:180-183`). `start` itself returns `Ok(())` unconditionally at
`manager.rs:185`, before the thread's outcome is known. -/
def SupervisorState.start (s : SupervisorState) (outcome : StartOutcome) :
    SupervisorState × Except String Unit :=
  if s.process.isSome then (s, Except.ok ())
  else
    let s1 : SupervisorState := { s with shutdownTx := true }
    match outcome with
    | StartOutcome.spawnFailed => (s1, Except.ok ())
    | StartOutcome.initFailed => (s1, Except.ok ())
    | StartOutcome.success =>
        ({ s1 with connection := some 1, process := some 1 }, Except.ok ())

/-- A supervisor that has never been started. -/
def freshSupervisor : SupervisorState :=
  { process := none, connection := none, shutdownTx := false }

/-- C6, counterexample: when the adapter spawn (or the initialize handshake)
fails, the caller of `start` still receives `Ok(())` — the error is only
logged inside the background thread, never reported to the caller. -/
theorem start_failure_counterexample :
    (freshSupervisor.start StartOutcome.spawnFailed).2 = Except.ok () ∧
    (freshSupervisor.start StartOutcome.initFailed).2 = Except.ok () :=
  ⟨rfl, rfl⟩

/-- C6, amended: `start` returns `Ok` to its caller unconditionally (spawn and
handshake failures are only logged in the background thread); on such a
failure no Connection and no process handle is stored, so the supervisor is
left in the "not running" state — though the shutdown sender installed at the
top of `start` does remain set. -/
theorem start_failure_no_partial_state (s : SupervisorState) (o : StartOutcome)
    (hrun : s.process = none) (hfail : o ≠ StartOutcome.success) :
    (s.start o).2 = Except.ok () ∧
    (s.start o).1.process = none ∧
    (s.start o).1.connection = s.connection := by
  cases o <;> simp_all [SupervisorState.start]

/-- C6, witness for `start_failure_no_partial_state` on a fresh supervisor
with a failing spawn. -/
theorem start_failure_no_partial_state_witness :
    (freshSupervisor.start StartOutcome.spawnFailed).2 = Except.ok () ∧
    (freshSupervisor.start StartOutcome.spawnFailed).1.process = none ∧
    (freshSupervisor.start StartOutcome.spawnFailed).1.connection =
      freshSupervisor.connection :=
  start_failure_no_partial_state freshSupervisor StartOutcome.spawnFailed rfl
    (by intro h; cases h)

/-! ## Permission broker (`src-tauri/src/acp_v2/client.rs:109-187`) -/

/-- `FrontendPermissionResponse` (`client.rs:43-48`): a decision submitted by
the approval authority, tagged with the correlation id it answers. -/
structure FrontendPermissionResponse where
  request_id : String
  option_id : Option String
  cancelled : Bool
deriving DecidableEq

/-- `RequestPermissionOutcome` of the protocol response to the adapter. -/
inductive PermissionOutcome
  | cancelled
  | selected (option_id : String)
deriving DecidableEq

/-- Translation of a received decision into the protocol response
(`client.rs:172-186`): cancelled → `Cancelled`; an option id → `Selected`;
neither → protocol-level internal error. -/
def decisionToOutcome (r : FrontendPermissionResponse) :
    Except String PermissionOutcome :=
  if r.cancelled then Except.ok PermissionOutcome.cancelled
  else
    match r.option_id with
    | some oid => Except.ok (PermissionOutcome.selected oid)
    | none => Except.error "internal error"

/-- `ThinkingSpaceClient::request_permission` (`client.rs:109-187`) from the
freshly generated correlation id (`client.rs:113`) onward. The decision
channel `permission_rx` is one unbounded mpsc shared by every waiter; its
queued decisions are the second argument and `recv().await`
(`client.rs:163-169`) takes the head. The first component of the result is
the `request_id` carried by the emitted `permission-request` event; the second
is `none` when the queue is empty (`recv` suspends), otherwise the consumed
decision, the protocol response built from it, and the remaining queue. The
consumed decision's `request_id` field is never compared against the fresh
id anywhere in the function. -/
def request_permission (freshId : String)
    (queue : List FrontendPermissionResponse) :
    String × Option (FrontendPermissionResponse × Except String PermissionOutcome
      × List FrontendPermissionResponse) :=
  (freshId,
    match queue with
    | [] => none
    | d :: rest => some (d, decisionToOutcome d, rest))

/-- A decision tagged for a different request than the waiter's. -/
def mismatchedDecision : FrontendPermissionResponse :=
  { request_id := "other-request", option_id := some "allow", cancelled := false }

/-- C1: a waiter whose fresh correlation id is `"fresh-id"` consumes the head
of the shared decision channel even though that decision is tagged
`"other-request"`, and returns a response derived from it — the code never
matches decisions against the waiter's own correlation id, so with more than
one request outstanding a decision for request B is consumed by the waiter for
request A. -/
theorem permission_mismatched_decision_consumed :
    (request_permission "fresh-id" [mismatchedDecision]).2 =
      some (mismatchedDecision,
        Except.ok (PermissionOutcome.selected "allow"), []) ∧
    mismatchedDecision.request_id ≠ "fresh-id" := by
  exact ⟨rfl, by decide⟩

/-! ## Session registry under concurrency (`manager.rs:293-371`)

`agent_v2_send_message` reads the session cache while holding the lock
(`manager.rs:294-297`), releases it, and — on a miss — calls `new_session`,
inserts the result and emits `agent-session-created` without ever re-checking
the cache (`manager.rs:311-371`). Two concurrent calls for the same key are
two tasks of the machine below; each executes the lookup step and, on a miss,
the creation step, and any interleaving of the two tasks' steps is a possible
schedule. -/

/-- Phase of one `agent_v2_send_message` task for a fixed working-directory
key: about to read the cache; observed a miss and about to create; or holding
the session id it will prompt on. -/
inductive SenderPhase
  | ready
  | mustCreate
  | done (sid : Nat)
deriving DecidableEq

/-- Shared state of the concurrent calls: the cache entry for the key
(`sessions` map), the adapter's next fresh session id, the counts of
`new_session` requests issued and `agent-session-created` events emitted, and
the per-task phases. -/
structure RegistryState where
  cache : Option Nat
  nextSid : Nat
  newSessionRequests : Nat
  sessionCreatedEvents : Nat
  tasks : List SenderPhase
deriving DecidableEq

/-- Advance task `i` by one atomic step. The lock is held only for the read
in the `ready` step (`manager.rs:294-297`); the whole creation
(`new_session` await + insert + event, `manager.rs:338-369`) happens after the
lock was dropped, so steps of different tasks may interleave between the read
and the creation. -/
def registryStep (s : RegistryState) (i : Nat) : RegistryState :=
  match s.tasks.get? i with
  | none => s
  | some SenderPhase.ready =>
      match s.cache with
      | some sid => { s with tasks := s.tasks.set i (SenderPhase.done sid) }
      | none => { s with tasks := s.tasks.set i SenderPhase.mustCreate }
  | some SenderPhase.mustCreate =>
      { cache := some s.nextSid,
        nextSid := s.nextSid + 1,
        newSessionRequests := s.newSessionRequests + 1,
        sessionCreatedEvents := s.sessionCreatedEvents + 1,
        tasks := s.tasks.set i (SenderPhase.done s.nextSid) }
  | some (SenderPhase.done _) => s

/-- Run the machine under a schedule: the list of task indices in the order
their next steps are executed. -/
def registryRun (s : RegistryState) (sched : List Nat) : RegistryState :=
  sched.foldl registryStep s

/-- Two concurrent sends for the same key, cache initially empty. -/
def twoSenders : RegistryState :=
  { cache := none, nextSid := 0, newSessionRequests := 0,
    sessionCreatedEvents := 0,
    tasks := [SenderPhase.ready, SenderPhase.ready] }

/-- C3: under the schedule in which both tasks read the empty cache before
either creates (lookup₀, lookup₁, create₀, create₁ — a legal interleaving,
since the lock is not held across creation), two `new_session` requests are
issued, two `agent-session-created` events are emitted, and the two callers
observe different session ids (0 and 1). -/
theorem concurrent_session_creation_race :
    registryRun twoSenders [0, 1, 0, 1] =
      { cache := some 1, nextSid := 2, newSessionRequests := 2,
        sessionCreatedEvents := 2,
        tasks := [SenderPhase.done 0, SenderPhase.done 1] } := by
  decide

/-! ## Session registry, sequential behaviour (`manager.rs:293-371`) -/

/-- The `working_directory → SessionId` cache (`manager.rs:27`) plus the
adapter's supply of fresh session ids. -/
structure SessionRegistry where
  sessions : List (String × Nat)
  nextSid : Nat

/-- `sessions_map.lock().get(&working_directory)` (`manager.rs:294-297`). -/
def lookupSession (m : List (String × Nat)) (k : String) : Option Nat :=
  (m.find? (fun p => p.1 == k)).map Prod.snd

/-- Session-resolution effect of one complete, uninterleaved
`agent_v2_send_message` call (`manager.rs:293-371`): look the key up; on a miss
(`need_new_session`, `manager.rs:306`) request a new session from the adapter
(which hands out `nextSid`), store it under the key (`manager.rs:350-353`) and
emit `agent-session-created` (`manager.rs:361-369`); on a hit reuse the cached
id with no request and no event. Returns the new registry, the session id the
prompt is sent on, whether a `new_session` request was issued, and whether an
`agent-session-created` event was emitted. -/
def send_message_session (s : SessionRegistry) (workingDir : String) :
    SessionRegistry × Nat × Bool × Bool :=
  match lookupSession s.sessions workingDir with
  | some sid => (s, sid, false, false)
  | none =>
      ({ sessions := (workingDir, s.nextSid) :: s.sessions,
         nextSid := s.nextSid + 1 },
       s.nextSid, true, true)

theorem lookupSession_cons_self (m : List (String × Nat)) (wd : String) (n : Nat) :
    lookupSession ((wd, n) :: m) wd = some n := by
  simp [lookupSession, List.find?_cons]

/-- C9: for two sequential send-message calls with the same working directory,
the second call finds the cached session: it issues no `new_session` request,
emits no second `agent-session-created` event, reuses exactly the session id
the first call used, and leaves the registry unchanged. -/
theorem send_message_reuses_session (s : SessionRegistry) (wd : String) :
    (send_message_session (send_message_session s wd).1 wd).2.1 =
      (send_message_session s wd).2.1 ∧
    (send_message_session (send_message_session s wd).1 wd).2.2.1 = false ∧
    (send_message_session (send_message_session s wd).1 wd).2.2.2 = false ∧
    (send_message_session (send_message_session s wd).1 wd).1 =
      (send_message_session s wd).1 := by
  rcases h : lookupSession s.sessions wd with _ | sid
  · simp only [send_message_session, h, lookupSession_cons_self]
    exact ⟨trivial, trivial, trivial, trivial⟩
  · simp only [send_message_session, h]
    exact ⟨trivial, trivial, trivial, trivial⟩

/-! ## Notification relay (`src-tauri/src/acp_v2/client.rs:89-302`) -/

/-- Operations on the client that touch the single global
`current_request_id`: `set_current_request_id` (`client.rs:89-91`, called by
`agent_v2_send_message` at `manager.rs:300` just before prompting) and the
session-notification kinds that are emitted with a `requestId` field
(`client.rs:194-216`, `client.rs:231-258`, `client.rs:260-276`). Each
notification carries the session it belongs to. -/
inductive ClientOp
  | setCurrentRequestId (rid : Nat)
  | agentMessageChunk (session : String) (text : String)
  | toolCall (session : String) (toolCallId : String)
  | toolCallUpdate (session : String) (toolCallId : String)
deriving DecidableEq

/-- A frontend event, restricted to the fields the claim is about. -/
structure EmittedEvent where
  name : String
  session : String
  requestId : Option Nat
deriving DecidableEq

/-- One client step. `set_current_request_id` overwrites the global slot;
every notification reads the slot at emission time (`client.rs:203`,
`client.rs:237`, `client.rs:263`) and tags its event with that value — the
notification's own session plays no part in choosing the tag. -/
def clientStep (cur : Option Nat) (op : ClientOp) :
    Option Nat × List EmittedEvent :=
  match op with
  | ClientOp.setCurrentRequestId rid => (some rid, [])
  | ClientOp.agentMessageChunk s _ =>
      (cur, [{ name := "agent-message-chunk", session := s, requestId := cur }])
  | ClientOp.toolCall s _ =>
      (cur, [{ name := "tool-call", session := s, requestId := cur }])
  | ClientOp.toolCallUpdate s _ =>
      (cur, [{ name := "tool-call-update", session := s, requestId := cur }])

/-- Run a sequence of client operations, collecting emitted events in order. -/
def clientRun (cur : Option Nat) : List ClientOp → Option Nat × List EmittedEvent
  | [] => (cur, [])
  | op :: ops =>
      let st := clientStep cur op
      let rest := clientRun st.1 ops
      (rest.1, st.2 ++ rest.2)

/-- `true` for the operation that changes the global request id. -/
def isSetRequestId : ClientOp → Bool
  | ClientOp.setCurrentRequestId _ => true
  | _ => false

theorem clientStep_state_no_set (cur : Option Nat) (op : ClientOp)
    (h : isSetRequestId op = false) : (clientStep cur op).1 = cur := by
  cases op <;> simp_all [clientStep, isSetRequestId]

theorem clientStep_tags_current (cur : Option Nat) (op : ClientOp) :
    ∀ e ∈ (clientStep cur op).2, e.requestId = cur := by
  cases op <;> simp [clientStep]

theorem clientRun_tags_no_set (cur : Option Nat) (ops : List ClientOp)
    (h : ops.all (fun op => !isSetRequestId op) = true) :
    ∀ e ∈ (clientRun cur ops).2, e.requestId = cur := by
  induction ops generalizing cur with
  | nil => simp [clientRun]
  | cons op ops ih =>
      simp only [List.all_cons, Bool.and_eq_true, Bool.not_eq_eq_eq_not,
        Bool.not_true] at h
      intro e he
      simp only [clientRun, List.mem_append] at he
      rcases he with he | he
      · exact clientStep_tags_current cur op e he
      · have hst := clientStep_state_no_set cur op h.1
        have := ih (clientStep cur op).1 (by simpa using h.2) e (by simpa using he)
        rwa [hst] at this

/-- C10: after `set_current_request_id r`, every `agent-message-chunk`,
`tool-call` and `tool-call-update` event emitted before the next
`set_current_request_id` call is tagged with `some r` — the single global
slot's most recent value — no matter which session the notification belongs
to; in particular, when prompts for two different sessions are in flight,
notifications of both sessions receive the one most recently set request id. -/
theorem notification_request_id_most_recent_set (cur : Option Nat) (r : Nat)
    (ops : List ClientOp)
    (h : ops.all (fun op => !isSetRequestId op) = true) :
    ∀ e ∈ (clientRun cur (ClientOp.setCurrentRequestId r :: ops)).2,
      e.requestId = some r := by
  intro e he
  simp only [clientRun, clientStep, List.nil_append] at he
  exact clientRun_tags_no_set (some r) ops h e he

/-- C10, witness for `notification_request_id_most_recent_set`: request id 5
is set, then a message chunk for session `"A"` and a tool call for session
`"B"` arrive; the tool-call event for session `"B"` is tagged with 5. -/
theorem notification_request_id_most_recent_set_witness :
    EmittedEvent.requestId
      { name := "tool-call", session := "B", requestId := some 5 } = some 5 :=
  notification_request_id_most_recent_set none 5
    [ClientOp.agentMessageChunk "A" "hello", ClientOp.toolCall "B" "tc-1"]
    (by decide)
    { name := "tool-call", session := "B", requestId := some 5 }
    (by decide)

end ThinkingSpace
